import Mathlib

/-!
# Riskly portfolio analytics — verification of spec claims

Shallow embedding of the Riskly frontend components (and, where the
backend computation is absent from the repository, models written from
the specification) together with theorems settling the spec claims.

Numbers are embedded as rationals (`ℚ`): the JavaScript arithmetic in
the claims is plain `+`, `-`, `*`, `/`, `min` and comparisons, and the
claims are about exact algebraic relationships and guard structure, not
floating-point rounding.
-/

namespace Riskly

/-! ## Tax savings calculator
Embeds `src/frontend/src/components/TaxOptimization/TaxSavingsCalculator.tsx`. -/

/-- Computes `netGainsLosses = totalUnrealizedGains - totalUnrealizedLosses`
(TaxSavingsCalculator.tsx line 16). -/
def netGainsLosses (totalUnrealizedGains totalUnrealizedLosses : ℚ) : ℚ :=
  totalUnrealizedGains - totalUnrealizedLosses

/-- Computes `offsetSavings = Math.min(totalUnrealizedGains, totalUnrealizedLosses) * (taxRate / 100)`
(TaxSavingsCalculator.tsx line 17). -/
def offsetSavings (totalUnrealizedGains totalUnrealizedLosses taxRate : ℚ) : ℚ :=
  min totalUnrealizedGains totalUnrealizedLosses * (taxRate / 100)

/-- The "Offset Savings" card is rendered under the JSX guard
`offsetSavings > 0` (TaxSavingsCalculator.tsx line 42). -/
def showOffsetSavingsCard (totalUnrealizedGains totalUnrealizedLosses taxRate : ℚ) : Bool :=
  0 < offsetSavings totalUnrealizedGains totalUnrealizedLosses taxRate

/-! ## Real-time analytics percent change
Embeds the percent-change computations of `useRealtimeAnalytics` in
`src/frontend/src/Home.tsx` (lines 315–357): both the portfolio-total
change (`prevTotal > 0 ? (totalChange / prevTotal) * 100 : 0`) and the
per-holding change
(`prevHolding.currentValue > 0 ? (valueChange / prevHolding.currentValue) * 100 : 0`)
use the same guarded formula. -/

/-- Guarded percent change of `useRealtimeAnalytics`:
`prev > 0 ? ((curr - prev) / prev) * 100 : 0`. -/
def changePercent (prev curr : ℚ) : ℚ :=
  if 0 < prev then (curr - prev) / prev * 100 else 0

/-! ## Rebalancing assistant tolerance
Embeds `src/frontend/src/components/RebalancingAssistant/RebalancingAssistant.tsx`:
`useState(5.0)` for the tolerance, and `fetchTargetAllocations`
(lines 54–68) which overwrites state only when the fetched allocation
map is non-empty, via `setTolerance(data.tolerance || 5.0)`. -/

/-- A symbol together with its target percentage, as in the
`TargetAllocation` interface of the rebalancing components. -/
structure TargetAllocation where
  symbol : String
  targetPercent : ℚ
  deriving Repr, DecidableEq

/-- State of the `RebalancingAssistant` component relevant here. -/
structure AssistantState where
  targetAllocations : List TargetAllocation
  tolerance : ℚ
  deriving Repr, DecidableEq

/-- Initial component state: `useState<TargetAllocation[]>([])` and
`useState(5.0)`. -/
def initialAssistantState : AssistantState := ⟨[], 5⟩

/-- Body of the response of `getTargetAllocations`: an allocation map
(symbol → percent entries) and an optional stored tolerance. -/
structure TargetAllocationsResponse where
  allocations : List (String × ℚ)
  tolerance : Option ℚ
  deriving Repr, DecidableEq

/-- JavaScript `data.tolerance || 5.0`: falls back to `5.0` when the
stored tolerance is absent (`undefined`/`null`) or `0` (falsy). -/
def toleranceOrDefault (stored : Option ℚ) : ℚ :=
  match stored with
  | none => 5
  | some t => if t = 0 then 5 else t

/-- Embeds `fetchTargetAllocations`: a failed fetch is swallowed (`none` leaves
the state unchanged); a response with an empty allocation map also
leaves the state unchanged; otherwise both the allocations and the
tolerance (`data.tolerance || 5.0`) are set. -/
def fetchTargetAllocations (s : AssistantState) (resp : Option TargetAllocationsResponse) :
    AssistantState :=
  match resp with
  | none => s
  | some d =>
    if d.allocations = [] then s
    else ⟨d.allocations.map (fun p => ⟨p.1, p.2⟩), toleranceOrDefault d.tolerance⟩

/-- The stored tolerance carried by a fetch outcome, when any. -/
def storedTolerance (resp : Option TargetAllocationsResponse) : Option ℚ :=
  resp.bind (·.tolerance)

/-! ## Backtesting engine request
Embeds the `BacktestingEngine` component (second document in
`src/frontend/src/components/TaxOptimization/TaxLossHarvesting.tsx`):
the period `<select>` options and `handleBacktest` (lines 85–100),
which builds `{ period }` and adds `startDate`/`endDate` only when the
corresponding state strings are non-empty (truthy). -/

/-- The exact `<option>` values of the period selector. -/
def backtestPeriodOptions : List String := ["1y", "3y", "5y", "10y", "custom"]

/-- The request body sent to `runBacktest`; absent fields are `none`. -/
structure BacktestRequest where
  period : String
  startDate : Option String
  endDate : Option String
  deriving Repr, DecidableEq

/-- Embeds `handleBacktest`: `backtestData = { period }`, then
`if (startDate) backtestData.startDate = startDate` and likewise for
`endDate` (empty string is falsy). -/
def handleBacktest (period startDate endDate : String) : BacktestRequest :=
  { period := period
    startDate := if startDate = "" then none else some startDate
    endDate := if endDate = "" then none else some endDate }

/-! ## Scenario simulator (backend engine modelled from the spec)
The repository's sources contain only the frontend `ScenarioBuilder` /
`ScenarioResults` components; the computation producing a
`ScenarioResult` lives in the backend, absent from `src/`. -/

/-- A holding as seen by the scenario simulator. -/
structure ScenarioHolding where
  symbol : String
  currentValue : ℚ
  deriving Repr, DecidableEq

/-- Per-holding scenario outcome, as in the `ScenarioResultsProps`
holdings array. -/
structure ScenarioHoldingResult where
  symbol : String
  currentValue : ℚ
  scenarioValue : ℚ
  change : ℚ
  changePercent : ℚ
  deriving Repr, DecidableEq

/-- Portfolio-level scenario outcome, as in `ScenarioResultsProps`. -/
structure ScenarioResult where
  currentValue : ℚ
  scenarioValue : ℚ
  totalChange : ℚ
  totalChangePercent : ℚ
  holdings : List ScenarioHoldingResult
  deriving Repr, DecidableEq

/-- Modelled from the spec: the backend market-crash computation is not
under `src/`; §4.6 prescribes a uniform shock applied to every holding's
price, so a crash of `s`% rescales a holding's value to
`(1 + s/100) ×` its current value. -/
def applyMarketCrashToHolding (s : ℚ) (h : ScenarioHolding) : ScenarioHoldingResult :=
  { symbol := h.symbol
    currentValue := h.currentValue
    scenarioValue := (1 + s / 100) * h.currentValue
    change := (1 + s / 100) * h.currentValue - h.currentValue
    changePercent := s }

/-- Modelled from the spec: the backend `MARKET_CRASH` simulation is not
under `src/`; it recomputes post-shock holding values, sums them, and
reports the portfolio change in dollars and percent. -/
def simulateMarketCrash (s : ℚ) (holdings : List ScenarioHolding) : ScenarioResult :=
  let results := holdings.map (applyMarketCrashToHolding s)
  let cv := (holdings.map (·.currentValue)).sum
  let sv := (results.map (·.scenarioValue)).sum
  { currentValue := cv
    scenarioValue := sv
    totalChange := sv - cv
    totalChangePercent := if 0 < cv then (sv - cv) / cv * 100 else 0
    holdings := results }

/-! ## Metrics engine sentinels (modelled from the spec)
The backend Metrics Engine is not under `src/`; only the
`PortfolioAnalytics` interface of `SinglePortfolio.tsx` records its
output shape. §4.2 of the spec defines the ratios and their
zero-denominator sentinels. The volatility and downside-deviation
denominators (square roots) are taken as already-computed inputs. -/

/-- Modelled from the spec: Sharpe ratio =
`(mean daily return × 252 − risk-free rate) / volatility`, defined as `0`
when the volatility is `0`. -/
def sharpeRatio (meanDailyReturn riskFreeRate volatility : ℚ) : ℚ :=
  if volatility = 0 then 0
  else (meanDailyReturn * 252 - riskFreeRate) / volatility

/-- Whether the daily return series contains a strictly negative return. -/
def hasNegativeReturn (returns : List ℚ) : Bool :=
  returns.any (fun r => decide (r < 0))

/-- Modelled from the spec: Sortino ratio = the Sharpe numerator divided
by the downside deviation, and `0` when there are no negative returns. -/
def sortinoRatio (meanDailyReturn riskFreeRate : ℚ) (returns : List ℚ)
    (downsideDeviation : ℚ) : ℚ :=
  if hasNegativeReturn returns then
    (meanDailyReturn * 252 - riskFreeRate) / downsideDeviation
  else 0

/-- Modelled from the spec: Calmar ratio =
`annualized return / |max drawdown|`, undefined (reported as `null`,
here `none`) when the drawdown is `0`. -/
def calmarRatio (annualizedReturn maxDrawdown : ℚ) : Option ℚ :=
  if maxDrawdown = 0 then none
  else some (annualizedReturn / |maxDrawdown|)

/-! ## Rebalancing advisor action (modelled from the spec)
The backend computation behind `getRebalancingSuggestions` is not under
`src/`; the frontend only declares the `RebalancingSuggestion` record.
§4.5: drift = currentWeight − targetWeight; `|drift| ≤ τ` → HOLD, else
SELL if `drift > τ`, BUY if `drift < −τ`. -/

/-- The `action` field values of a `RebalancingSuggestion`. -/
inductive RebalanceAction where
  | BUY
  | SELL
  | HOLD
  deriving Repr, DecidableEq

/-- Modelled from the spec: the per-holding action of the Rebalancing
Advisor, decided from the drift and the tolerance. -/
def rebalanceAction (drift tolerance : ℚ) : RebalanceAction :=
  if |drift| ≤ tolerance then RebalanceAction.HOLD
  else if tolerance < drift then RebalanceAction.SELL
  else RebalanceAction.BUY

/-! ## Correlation analyzer flags (modelled from the spec)
The backend computation behind `getCorrelationAnalysis` is not under
`src/`; the frontend `CorrelationAnalysis.tsx` only declares the
`highlyCorrelated` array (symbol1, symbol2, correlation) and renders it
with the caption "high correlation (>0.7)". §4.3: "Flags any pair with
correlation > 0.7 as highly correlated." -/

/-- An entry of the `highlyCorrelated` array. -/
structure CorrelatedPair where
  symbol1 : String
  symbol2 : String
  correlation : ℚ
  deriving Repr, DecidableEq

/-- Modelled from the spec: the analyzer's flagging pass over the
pairwise correlations (each pair of distinct holdings with its Pearson
correlation), keeping exactly those with correlation above `0.7` and
reporting their two symbols and the correlation value. -/
def flagHighlyCorrelated (pairs : List (String × String × ℚ)) : List CorrelatedPair :=
  (pairs.filter (fun p => decide ((7 : ℚ) / 10 < p.2.2))).map
    (fun p => ⟨p.1, p.2.1, p.2.2⟩)

/-! ## Target allocation editor
Embeds `src/frontend/src/components/RebalancingAssistant/TargetAllocationEditor.tsx`:
`handleAddAllocation` (lines 31–49), `handleRemoveAllocation` (lines
51–53), `handleUpdatePercent` (lines 55–67) and `handleSave` (lines
69–96). -/

/-- Computes `allocations.reduce((sum, a) => sum + a.targetPercent, 0)`. -/
def allocTotal (allocations : List TargetAllocation) : ℚ :=
  allocations.foldl (fun sum a => sum + a.targetPercent) 0

/-- Embeds `handleAddAllocation`: empty symbol input is ignored; a percent
outside `[0, 100]` is rejected; a new total above `100` is rejected;
otherwise the (upper-cased) symbol is appended with its percent. -/
def handleAddAllocation (allocations : List TargetAllocation) (newSymbol : String)
    (percent : ℚ) : List TargetAllocation :=
  if newSymbol = "" then allocations
  else if percent < 0 ∨ 100 < percent then allocations
  else if 100 < allocTotal allocations + percent then allocations
  else allocations ++ [⟨newSymbol.toUpper, percent⟩]

/-- Replacement of the `targetPercent` at one index, leaving the list
unchanged when the index is out of range (the editor only produces
in-range indices). -/
def setPercentAt : List TargetAllocation → Nat → ℚ → List TargetAllocation
  | [], _, _ => []
  | a :: rest, 0, p => ⟨a.symbol, p⟩ :: rest
  | a :: rest, i + 1, p => a :: setPercentAt rest i p

/-- Embeds `handleUpdatePercent`: a percent outside `[0, 100]` is rejected; the
total is recomputed with the indexed entry replaced
(`sum + (i === index ? percent : a.targetPercent)`), and a total above
`100` is rejected; otherwise the entry is replaced. -/
def handleUpdatePercent (allocations : List TargetAllocation) (index : Nat)
    (percent : ℚ) : List TargetAllocation :=
  if percent < 0 ∨ 100 < percent then allocations
  else if 100 < allocTotal (setPercentAt allocations index percent) then allocations
  else setPercentAt allocations index percent

/-- Embeds `handleRemoveAllocation`: `allocations.filter((_, i) => i !== index)`,
i.e. removal of the entry at `index`. -/
def handleRemoveAllocation (allocations : List TargetAllocation) (index : Nat) :
    List TargetAllocation :=
  allocations.eraseIdx index

/-- The body passed to `portfolioService.setTargetAllocations`. -/
structure SaveAllocationsPayload where
  allocations : List (String × ℚ)
  tolerance : ℚ
  deriving Repr, DecidableEq

/-- Embeds `handleSave`: an empty list is rejected, a total above `100` is
rejected (the Save button is also disabled in that case); otherwise
`setTargetAllocations` is invoked with the allocations and tolerance.
`none` models the rejected save (no request sent). -/
def handleSave (allocations : List TargetAllocation) (tolerance : ℚ) :
    Option SaveAllocationsPayload :=
  if allocations = [] then none
  else if 100 < allocTotal allocations then none
  else some ⟨allocations.map (fun a => (a.symbol, a.targetPercent)), tolerance⟩

/-- The invariant of the amended claim C2: all target percents are
nonnegative and their total is at most `100`. -/
def AllocInvariant (allocations : List TargetAllocation) : Prop :=
  (∀ a ∈ allocations, 0 ≤ a.targetPercent) ∧ allocTotal allocations ≤ 100

/-! ## Performance attribution
The frontend sum is embedded from
`src/frontend/src/components/PerformanceAttribution/PerformanceAttribution.tsx`
(lines 148–151); the backend Attribution Engine producing
`contributionToReturn` is not under `src/` and is modelled from §4.4 of
the spec. -/

/-- One entry of `attribution.byHolding` (the field the sum reads). -/
structure AttributionHolding where
  symbol : String
  contributionToReturn : ℚ
  deriving Repr, DecidableEq

/-- Embeds `totalContribution`: the frontend's
`attribution.byHolding.reduce((sum, h) => sum + h.contributionToReturn, 0)`. -/
def totalContribution (byHolding : List AttributionHolding) : ℚ :=
  byHolding.foldl (fun sum h => sum + h.contributionToReturn) 0

/-- Input to the attribution engine: per holding, its symbol, its weight
at the start of the period, and its own total return over the period. -/
abbrev AttributionInput := List (String × ℚ × ℚ)

/-- Modelled from the spec: the raw (un-normalized) per-holding
contributions, `weight × own total return`. -/
def rawContributions (holdings : AttributionInput) : List ℚ :=
  holdings.map (fun h => h.2.1 * h.2.2)

/-- Modelled from the spec: the backend Attribution Engine is not under
`src/`; §4.4 prescribes `weight × own return`, normalized so that the
contributions sum to the portfolio's total return, the residual being
distributed proportionally — i.e. each raw contribution is scaled by
`totalReturn / (sum of raw contributions)` whenever that sum is
non-zero. -/
def attributionByHolding (holdings : AttributionInput) (totalReturn : ℚ) :
    List AttributionHolding :=
  let s := (rawContributions holdings).sum
  holdings.map (fun h =>
    ⟨h.1, if s = 0 then h.2.1 * h.2.2 else h.2.1 * h.2.2 * (totalReturn / s)⟩)

end Riskly

namespace Riskly

/-- The frontend fold computes the list sum of the contributions. -/
theorem totalContribution_eq_sum (byHolding : List AttributionHolding) :
    totalContribution byHolding = (byHolding.map (·.contributionToReturn)).sum := by
  have key : ∀ (l : List AttributionHolding) (a : ℚ),
      l.foldl (fun sum h => sum + h.contributionToReturn) a
        = a + (l.map (·.contributionToReturn)).sum := by
    intro l
    induction l with
    | nil => intro a; simp
    | cons x xs ih =>
      intro a
      simp [ih, add_assoc]
  simpa using key byHolding 0

/-- C9: For every input to TaxSavingsCalculator, `offsetSavings` equals
`min(totalUnrealizedGains, totalUnrealizedLosses) × (taxRate / 100)`,
`netGainsLosses` equals `totalUnrealizedGains − totalUnrealizedLosses`, and the
"Offset Savings" card is rendered exactly when `offsetSavings > 0`. -/
theorem c9_tax_savings_calculator (g l r : ℚ) :
    offsetSavings g l r = min g l * (r / 100) ∧
    netGainsLosses g l = g - l ∧
    (showOffsetSavingsCard g l r = true ↔ 0 < offsetSavings g l r) := by
  refine ⟨rfl, rfl, ?_⟩
  simp [showOffsetSavingsCard]

/-- C10: the percent change equals `(current − previous) / previous × 100` when
the previous value is strictly positive, and `0` otherwise; being a total
function into `ℚ`, it is never `NaN` nor infinite. -/
theorem c10_change_percent_guarded (prev curr : ℚ) :
    (0 < prev → changePercent prev curr = (curr - prev) / prev * 100) ∧
    (¬ 0 < prev → changePercent prev curr = 0) := by
  constructor <;> intro h <;> simp [changePercent, h]

/-- Witness for C10 at `prev = 50`, `curr = 60` and at `prev = 0`. -/
theorem c10_change_percent_guarded_witness :
    changePercent 50 60 = (60 - 50) / 50 * 100 ∧ changePercent 0 60 = 0 :=
  ⟨(c10_change_percent_guarded 50 60).1 (by norm_num),
   (c10_change_percent_guarded 0 60).2 (by norm_num)⟩

/-- C4: whenever no stored tolerance value is available for a portfolio —
the fetch failed, or the response carries no tolerance — the Rebalancing
Assistant's tolerance is `5.0`. -/
theorem c4_default_tolerance (resp : Option TargetAllocationsResponse)
    (h : storedTolerance resp = none) :
    (fetchTargetAllocations initialAssistantState resp).tolerance = 5 := by
  match resp with
  | none => rfl
  | some d =>
    have h' : d.tolerance = none := by
      simpa [storedTolerance] using h
    by_cases he : d.allocations = [] <;>
      simp [fetchTargetAllocations, he, initialAssistantState, toleranceOrDefault, h']

/-- Witness for C4: a successful fetch whose response stores allocations
but no tolerance yields tolerance `5`. -/
theorem c4_default_tolerance_witness :
    storedTolerance (some ⟨[("AAPL", 50)], none⟩) = none ∧
    (fetchTargetAllocations initialAssistantState (some ⟨[("AAPL", 50)], none⟩)).tolerance = 5 :=
  ⟨rfl, c4_default_tolerance (some ⟨[("AAPL", 50)], none⟩) rfl⟩

/-- C7: the period selector accepts exactly `1y`, `3y`, `5y`, `10y` and
`custom` (the explicit start/end range), and every backtest request carries
the selected period, while `startDate`/`endDate` are present exactly when
they have been set to a non-empty value. -/
theorem c7_backtest_request (p sd ed : String) :
    (p ∈ backtestPeriodOptions ↔
      p = "1y" ∨ p = "3y" ∨ p = "5y" ∨ p = "10y" ∨ p = "custom") ∧
    (handleBacktest p sd ed).period = p ∧
    (handleBacktest p sd ed).startDate = (if sd = "" then none else some sd) ∧
    (handleBacktest p sd ed).endDate = (if ed = "" then none else some ed) := by
  refine ⟨?_, rfl, rfl, rfl⟩
  simp [backtestPeriodOptions]

/-- C6: a uniform market-crash of `s`% scales every holding's scenario
value to `(1 + s/100) ×` its current value, and (for a portfolio of
positive current value) reports `totalChangePercent = s`. -/
theorem c6_market_crash_uniform (s : ℚ) (holdings : List ScenarioHolding)
    (hpos : 0 < (holdings.map (·.currentValue)).sum) :
    (∀ r ∈ (simulateMarketCrash s holdings).holdings,
        r.scenarioValue = (1 + s / 100) * r.currentValue) ∧
    (simulateMarketCrash s holdings).totalChangePercent = s := by
  constructor
  · intro r hr
    simp only [simulateMarketCrash, List.mem_map] at hr
    obtain ⟨h, -, rfl⟩ := hr
    rfl
  · have hsum : ((holdings.map (applyMarketCrashToHolding s)).map (·.scenarioValue)).sum
        = (1 + s / 100) * (holdings.map (·.currentValue)).sum := by
      rw [List.map_map]
      have : ((fun r : ScenarioHoldingResult => r.scenarioValue) ∘ applyMarketCrashToHolding s)
          = fun h : ScenarioHolding => (1 + s / 100) * h.currentValue := rfl
      rw [this, ← List.sum_map_mul_left]
    have hne : (holdings.map (·.currentValue)).sum ≠ 0 := ne_of_gt hpos
    simp only [simulateMarketCrash, hsum, if_pos hpos]
    field_simp
    ring

/-- Witness for C6: the spec's example, a −20% crash on a $10,000
portfolio (here AAPL $6,000 + MSFT $4,000): scenario value $8,000 and
totalChangePercent = −20. -/
theorem c6_market_crash_uniform_witness :
    (simulateMarketCrash (-20) [⟨"AAPL", 6000⟩, ⟨"MSFT", 4000⟩]).totalChangePercent = -20 ∧
    (simulateMarketCrash (-20) [⟨"AAPL", 6000⟩, ⟨"MSFT", 4000⟩]).scenarioValue = 8000 := by
  constructor
  · exact (c6_market_crash_uniform (-20) [⟨"AAPL", 6000⟩, ⟨"MSFT", 4000⟩]
      (by norm_num [ScenarioHolding.currentValue])).2
  · norm_num [simulateMarketCrash, applyMarketCrashToHolding]

/-- C5: Sharpe is `0` when the volatility is `0`, Sortino is `0` when
there are no negative returns, and Calmar is `none` (null) when the max
drawdown is `0` — defined sentinels, not NaN or an exception. -/
theorem c5_ratio_sentinels (m rf dd a : ℚ) (rs : List ℚ)
    (hneg : hasNegativeReturn rs = false) :
    sharpeRatio m rf 0 = 0 ∧
    sortinoRatio m rf rs dd = 0 ∧
    calmarRatio a 0 = none := by
  refine ⟨rfl, ?_, rfl⟩
  simp [sortinoRatio, hneg]

/-- Witness for C5 at concrete inputs: an all-nonnegative return series
triggers the Sortino sentinel, zero volatility the Sharpe sentinel and
zero drawdown the Calmar sentinel. -/
theorem c5_ratio_sentinels_witness :
    hasNegativeReturn [1/100, 0, 2/100] = false ∧
    sharpeRatio (1/1000) (1/50) 0 = 0 ∧
    sortinoRatio (1/1000) (1/50) [1/100, 0, 2/100] 3 = 0 ∧
    calmarRatio (1/10) 0 = none := by
  have h : hasNegativeReturn [1/100, 0, 2/100] = false := by
    norm_num [hasNegativeReturn]
  exact ⟨h, (c5_ratio_sentinels (1/1000) (1/50) 3 (1/10) [1/100, 0, 2/100] h).1,
    (c5_ratio_sentinels (1/1000) (1/50) 3 (1/10) [1/100, 0, 2/100] h).2.1,
    (c5_ratio_sentinels (1/1000) (1/50) 3 (1/10) [1/100, 0, 2/100] h).2.2⟩

/-- C3: with a nonnegative tolerance, the action is HOLD exactly when
`|drift| ≤ tolerance`, SELL when `drift > tolerance`, and BUY when
`drift < −tolerance`. -/
theorem c3_rebalance_action (drift tolerance : ℚ) (htol : 0 ≤ tolerance) :
    (rebalanceAction drift tolerance = RebalanceAction.HOLD ↔ |drift| ≤ tolerance) ∧
    (tolerance < drift → rebalanceAction drift tolerance = RebalanceAction.SELL) ∧
    (drift < -tolerance → rebalanceAction drift tolerance = RebalanceAction.BUY) := by
  refine ⟨⟨fun h => ?_, fun h => ?_⟩, fun h => ?_, fun h => ?_⟩
  · by_contra habs
    simp only [rebalanceAction, if_neg habs] at h
    split at h <;> simp_all
  · simp [rebalanceAction, h]
  · have habs : ¬ |drift| ≤ tolerance := by
      intro hc
      exact absurd (le_trans (le_abs_self drift) hc) (not_le.mpr h)
    simp [rebalanceAction, habs, h]
  · have habs : ¬ |drift| ≤ tolerance := by
      intro hc
      have := abs_le.mp hc
      linarith [this.1]
    have hns : ¬ tolerance < drift := by linarith
    simp [rebalanceAction, habs, hns]

/-- Witness for C3 at tolerance 5 (the default): drift 10 sells, drift
−10 buys, drift 3 holds. -/
theorem c3_rebalance_action_witness :
    rebalanceAction 10 5 = RebalanceAction.SELL ∧
    rebalanceAction (-10) 5 = RebalanceAction.BUY ∧
    rebalanceAction 3 5 = RebalanceAction.HOLD :=
  ⟨(c3_rebalance_action 10 5 (by norm_num)).2.1 (by norm_num),
   (c3_rebalance_action (-10) 5 (by norm_num)).2.2 (by norm_num),
   (c3_rebalance_action 3 5 (by norm_num)).1.mpr (by norm_num)⟩

/-- C8: a pair appears in the `highlyCorrelated` output exactly when it
is an input pair whose correlation exceeds 0.7, and it is reported with
its two symbols and its correlation value. -/
theorem c8_highly_correlated (pairs : List (String × String × ℚ)) (s1 s2 : String) (c : ℚ) :
    (⟨s1, s2, c⟩ : CorrelatedPair) ∈ flagHighlyCorrelated pairs ↔
      ((s1, s2, c) ∈ pairs ∧ (7 : ℚ) / 10 < c) := by
  simp only [flagHighlyCorrelated, List.mem_map, List.mem_filter]
  constructor
  · rintro ⟨⟨a, b, d⟩, ⟨hmem, hgt⟩, heq⟩
    obtain ⟨rfl, rfl, rfl⟩ := CorrelatedPair.mk.injEq .. ▸ (by
      injection heq with h1 h2 h3
      exact ⟨h1, h2, h3⟩ : a = s1 ∧ b = s2 ∧ d = c)
    exact ⟨hmem, by simpa using hgt⟩
  · rintro ⟨hmem, hgt⟩
    exact ⟨(s1, s2, c), ⟨hmem, by simpa using hgt⟩, rfl⟩

/-- C1: for every attribution result of the (spec-modelled) engine whose
raw weighted contributions do not sum to zero, the sum of the per-holding
contribution-to-return values — which is exactly what the frontend's
"Total Contribution to Return" fold displays — equals the portfolio's
total return (exactly, hence within any tolerance). -/
theorem c1_attribution_sums_to_total_return (holdings : AttributionInput) (totalReturn : ℚ)
    (hs : (rawContributions holdings).sum ≠ 0) :
    totalContribution (attributionByHolding holdings totalReturn) = totalReturn := by
  rw [totalContribution_eq_sum]
  simp only [attributionByHolding, if_neg hs]
  have key : ∀ l : AttributionInput,
      ((l.map fun h : String × ℚ × ℚ =>
          (⟨h.1, h.2.1 * h.2.2 * (totalReturn / (rawContributions holdings).sum)⟩ :
            AttributionHolding)).map (·.contributionToReturn)).sum
        = (rawContributions l).sum * (totalReturn / (rawContributions holdings).sum) := by
    intro l
    induction l with
    | nil => simp [rawContributions]
    | cons x xs ih =>
      simp only [List.map_cons, List.sum_cons, ih]
      simp only [rawContributions, List.map_cons, List.sum_cons, add_mul]
  rw [key holdings, mul_comm]
  exact div_mul_cancel₀ totalReturn hs

/-- Witness for C1: the spec's worked example — AAPL weight 1/2 with
return 1/5, MSFT weight 1/2 with return −1/15, portfolio total return
1/15 ≈ 6.67%; the displayed total contribution is exactly 1/15. -/
theorem c1_attribution_sums_to_total_return_witness :
    (rawContributions [("AAPL", 1/2, 1/5), ("MSFT", 1/2, -1/15)]).sum ≠ 0 ∧
    totalContribution
      (attributionByHolding [("AAPL", 1/2, 1/5), ("MSFT", 1/2, -1/15)] (1/15)) = 1/15 := by
  have h : (rawContributions [("AAPL", 1/2, 1/5), ("MSFT", 1/2, -1/15)]).sum ≠ 0 := by
    norm_num [rawContributions]
  exact ⟨h, c1_attribution_sums_to_total_return
    [("AAPL", 1/2, 1/5), ("MSFT", 1/2, -1/15)] (1/15) h⟩

/-- The editor's reduce computes the list sum of the target percents. -/
theorem allocTotal_eq_sum (allocations : List TargetAllocation) :
    allocTotal allocations = (allocations.map (·.targetPercent)).sum := by
  have key : ∀ (l : List TargetAllocation) (a : ℚ),
      l.foldl (fun sum x => sum + x.targetPercent) a
        = a + (l.map (·.targetPercent)).sum := by
    intro l
    induction l with
    | nil => intro a; simp
    | cons x xs ih =>
      intro a
      simp [ih, add_assoc]
  simpa using key allocations 0

/-- Every entry of `setPercentAt as i p` is an entry of `as` or carries
the new percent `p`. -/
theorem mem_setPercentAt {p : ℚ} :
    ∀ (as : List TargetAllocation) (i : Nat) (a : TargetAllocation),
      a ∈ setPercentAt as i p → a ∈ as ∨ a.targetPercent = p
  | [], _, a, h => by simp [setPercentAt] at h
  | b :: rest, 0, a, h => by
    rcases List.mem_cons.mp h with hh | hh
    · right
      rw [hh]
    · left
      exact List.mem_cons_of_mem _ hh
  | b :: rest, i + 1, a, h => by
    rcases List.mem_cons.mp h with hh | hh
    · left
      rw [hh]
      exact List.mem_cons_self _ _
    · rcases mem_setPercentAt rest i a hh with h' | h'
      · left
        exact List.mem_cons_of_mem _ h'
      · right
        exact h'

/-- C2 counterexample: the claim as stated fails on removal. With initial
allocations `A ↦ −50%, B ↦ 120%` the total is `70 ≤ 100`, yet removing
the entry at index 0 leaves a total of `120 > 100`. -/
theorem c2_counterexample_remove_breaks_invariant :
    allocTotal [⟨"A", -50⟩, ⟨"B", 120⟩] ≤ 100 ∧
    100 < allocTotal (handleRemoveAllocation [⟨"A", -50⟩, ⟨"B", 120⟩] 0) := by
  constructor <;> norm_num [allocTotal, handleRemoveAllocation, List.eraseIdx]

/-- C2 (amended): assuming the initial allocations are each nonnegative
and sum to at most 100, every editor operation (add, update, remove)
preserves that invariant, and a save whose total exceeds 100% is
rejected, so `setTargetAllocations` is never invoked with target weights
summing above 100%. -/
theorem c2_amended_editor_invariant (as : List TargetAllocation) (sym : String)
    (p : ℚ) (i j : Nat) (q tol : ℚ) (hinv : AllocInvariant as) :
    AllocInvariant (handleAddAllocation as sym p) ∧
    AllocInvariant (handleUpdatePercent as i q) ∧
    AllocInvariant (handleRemoveAllocation as j) ∧
    ∀ payload, handleSave as tol = some payload →
      (payload.allocations.map (·.2)).sum ≤ 100 := by
  obtain ⟨hnn, hle⟩ := hinv
  refine ⟨?_, ?_, ?_, ?_⟩
  · unfold handleAddAllocation
    split_ifs with h1 h2 h3
    · exact ⟨hnn, hle⟩
    · exact ⟨hnn, hle⟩
    · exact ⟨hnn, hle⟩
    · push_neg at h2 h3
      constructor
      · intro a ha
        rcases List.mem_append.mp ha with ha | ha
        · exact hnn a ha
        · simp only [List.mem_singleton] at ha
          rw [ha]
          exact h2.1
      · rw [allocTotal_eq_sum] at h3 ⊢
        simpa [allocTotal_eq_sum] using h3
  · unfold handleUpdatePercent
    split_ifs with h1 h2
    · exact ⟨hnn, hle⟩
    · exact ⟨hnn, hle⟩
    · push_neg at h1 h2
      constructor
      · intro a ha
        rcases mem_setPercentAt as i a ha with h' | h'
        · exact hnn a h'
        · rw [h']
          exact h1.1
      · exact h2
  · constructor
    · intro a ha
      exact hnn a ((List.eraseIdx_sublist as j).subset ha)
    · rw [allocTotal_eq_sum] at hle ⊢
      refine le_trans ?_ hle
      have hsub : List.Sublist ((as.eraseIdx j).map (·.targetPercent))
          (as.map (·.targetPercent)) :=
        (List.eraseIdx_sublist as j).map _
      refine hsub.sum_le_sum ?_
      intro x hx
      obtain ⟨a, ha, rfl⟩ := List.mem_map.mp hx
      exact hnn a ha
  · intro payload hpay
    unfold handleSave at hpay
    split_ifs at hpay with h1 h2
    injection hpay with hpay
    rw [← hpay]
    push_neg at h2
    rw [allocTotal_eq_sum] at h2
    simpa [List.map_map, Function.comp] using h2

/-- Witness for C2 (amended) at a concrete valid editor state
`AAPL ↦ 60%, MSFT ↦ 40%`: an add of `TSLA ↦ 10%`, an update of index 0
to `50%`, and a removal of index 1 all keep the total within 100. -/
theorem c2_amended_editor_invariant_witness :
    allocTotal (handleAddAllocation [⟨"AAPL", 60⟩, ⟨"MSFT", 40⟩] "TSLA" 10) ≤ 100 ∧
    allocTotal (handleUpdatePercent [⟨"AAPL", 60⟩, ⟨"MSFT", 40⟩] 0 50) ≤ 100 ∧
    allocTotal (handleRemoveAllocation [⟨"AAPL", 60⟩, ⟨"MSFT", 40⟩] 1) ≤ 100 := by
  have hinv : AllocInvariant [⟨"AAPL", 60⟩, ⟨"MSFT", 40⟩] := by
    constructor
    · intro a ha
      rcases List.mem_cons.mp ha with h | h
      · rw [h]; norm_num
      · simp only [List.mem_singleton] at h
        rw [h]; norm_num
    · norm_num [allocTotal]
  have main := c2_amended_editor_invariant [⟨"AAPL", 60⟩, ⟨"MSFT", 40⟩] "TSLA" 10 0 1 50 5 hinv
  exact ⟨main.1.2, main.2.1.2, main.2.2.1.2⟩

end Riskly
